import Mathlib

/-!
# Verification of the fabric RAG pipeline

A shallow embedding of the pure core of `modules/fabric_processor.py`,
`modules/outfit_generator.py` and `config/fabric_config.py`, together with
theorems settling the specification claims about chunk building, attribute
inference, embedding attachment, similarity search, query building and
prompt assembly.

Modelling conventions:
* Python `str` is Lean `String`; Python string methods (`lower`, `title`,
  `replace`, `in`, `join`, slicing) are modelled by explicit functions over
  `String.data` so that everything reduces in the kernel.
* Python `Optional[T]` is `Option T`; Python truthiness of optional strings,
  ints and lists is modelled by explicit `truthy*` helpers (`""`, `0`, `[]`
  and `None` are falsy).
* Python machine-free `int` is `Int`; float similarity scores are modelled
  as `ℚ` and the numpy cosine computation is abstracted as an explicit
  `score` function parameter (floating point is not modelled; every claim
  settled here concerns the threshold/sort/truncation structure around the
  score, which holds for any score function).
* Methods of `FabricProcessor` / `OutfitGenerator` that are pure become
  top-level functions of the same (underscore-stripped) name; `self` state
  (the OpenAI client) only gates I/O paths that are outside the claims.
-/

namespace FabricRag

/-! ## Python string primitives -/

/-- Python `s.lower()` restricted to the ASCII case folding performed by
`Char.toLower` (all strings occurring in the repository's vocabularies and
test data are ASCII). -/
def lowerStr (s : String) : String :=
  String.mk (s.data.map Char.toLower)

/-- Scan for `n` as a contiguous sublist: `n` is a prefix of some suffix. -/
def isSubstrGo (n : List Char) : List Char → Bool
  | [] => n.isEmpty
  | c :: rest => n.isPrefixOf (c :: rest) || isSubstrGo n rest

/-- Python `needle in haystack` substring containment. -/
def strIn (needle haystack : String) : Bool :=
  isSubstrGo needle.data haystack.data

/-- Python `s.replace('_', ' ')`. -/
def replUnderscoreSpace (s : String) : String :=
  String.mk (s.data.map (fun c => if c = '_' then ' ' else c))

/-- Python `s.replace('_', '')`. -/
def removeUnderscore (s : String) : String :=
  String.mk (s.data.filter (fun c => c ≠ '_'))

/-- One step of Python `str.title()`: upper-case an alphabetic character
whose predecessor is not alphabetic, lower-case the rest. -/
def titleGo : Bool → List Char → List Char
  | _, [] => []
  | prevAlpha, c :: cs =>
    (if c.isAlpha then (if prevAlpha then c.toLower else c.toUpper) else c)
      :: titleGo c.isAlpha cs

/-- Python `s.title()`. -/
def pyTitle (s : String) : String :=
  String.mk (titleGo false s.data)

/-- Python `sep.join(parts)`. -/
def pyJoin (sep : String) : List String → String
  | [] => ""
  | [p] => p
  | p :: q :: rest => p ++ sep ++ pyJoin sep (q :: rest)

/-- Python `s[:n]` (first `n` code points). -/
def strTake (s : String) (n : Nat) : String :=
  String.mk (s.data.take n)

/-- Python truthiness of an `Optional[str]`. -/
def truthyS : Option String → Bool
  | some s => s ≠ ""
  | none => false

/-- Python truthiness of an `Optional[int]`. -/
def truthyI : Option Int → Bool
  | some w => w ≠ 0
  | none => false

/-- Python truthiness of an `Optional[List[T]]`. -/
def truthyL {α : Type} : Option (List α) → Bool
  | some (_ :: _) => true
  | _ => false

/-! ## Configuration data (`config/fabric_config.py`) -/

/-- `FABRIC_COMPOSITIONS` from `config/fabric_config.py`. -/
def FABRIC_COMPOSITIONS : List String :=
  ["wool", "cotton", "linen", "silk", "polyester",
   "wool_blend", "cotton_blend", "cashmere",
   "mohair", "alpaca", "viscose", "synthetic"]

/-- `FABRIC_PATTERNS` from `config/fabric_config.py`. -/
def FABRIC_PATTERNS : List String :=
  ["solid", "striped", "checked", "plaid",
   "herringbone", "houndstooth", "pinstripe",
   "windowpane", "birdseye", "twill", "textured"]

/-- `FABRIC_FINISHES` from `config/fabric_config.py`. -/
def FABRIC_FINISHES : List String :=
  ["matte", "shiny", "semi_gloss", "brushed",
   "smooth", "textured", "velvet", "satin"]

/-- One entry of `FABRIC_WEIGHTS`: a `{"min": _, "max": _, "seasons": _}`
dictionary. -/
structure WeightBand where
  min : Int
  max : Int
  seasons : List String
deriving DecidableEq, Repr

/-- `FABRIC_WEIGHTS` from `config/fabric_config.py`, in Python 3.7+ dict
insertion order. -/
def FABRIC_WEIGHTS : List (String × WeightBand) :=
  [("lightweight", ⟨0, 250, ["spring", "summer"]⟩),
   ("medium", ⟨250, 350, ["spring", "fall"]⟩),
   ("heavyweight", ⟨350, 600, ["fall", "winter"]⟩)]

/-- One entry of `FABRIC_CATEGORIES`. -/
structure CategoryInfo where
  name : String
  occasions : List String
  seasons : List String
deriving DecidableEq, Repr

/-- `FABRIC_CATEGORIES` from `config/fabric_config.py`. -/
def FABRIC_CATEGORIES : List (String × CategoryInfo) :=
  [("ceremony",
    ⟨"Ceremony Suits", ["wedding", "formal_event", "gala"],
     ["spring", "summer", "fall", "winter"]⟩),
   ("business",
    ⟨"Business Suits", ["business", "office", "professional"],
     ["spring", "summer", "fall", "winter"]⟩),
   ("casual",
    ⟨"Casual Wear", ["casual", "smart_casual", "weekend"],
     ["spring", "summer", "fall", "winter"]⟩),
   ("seasonal",
    ⟨"Seasonal Collections", ["varied"],
     ["spring", "summer", "fall", "winter"]⟩)]

/-- `config.RAG_TOP_K_RESULTS` (default 5). -/
def RAG_TOP_K_RESULTS : Nat := 5

/-! ## Data model -/

/-- The `FabricData` dataclass from `modules/fabric_scraper.py`.
`__post_init__` replaces `None` season / image-url lists by `[]`, so those
fields are modelled as plain lists; `scrape_date` and `additional_metadata`
are bookkeeping fields used by no claim and are omitted. -/
structure FabricData where
  fabric_code : String
  name : Option String := none
  composition : Option String := none
  weight : Option Int := none
  color : Option String := none
  pattern : Option String := none
  price_category : Option String := none
  stock_status : Option String := none
  season : List String := []
  supplier : Option String := some "Formens"
  origin : Option String := none
  image_urls : List String := []
  local_image_paths : List String := []
  description : Option String := none
  care_instructions : Option String := none
  category : Option String := none
deriving DecidableEq, Repr

/-- The `FabricChunk` dataclass from `modules/fabric_processor.py`.
The `metadata` dictionary (`Dict[str, Any]`) carries heterogeneous audit
data used by no claim and is omitted from the model. -/
structure FabricChunk where
  fabric_code : String
  chunk_id : String
  content : String
  chunk_type : String
  embedding : Option (List ℚ) := none
deriving DecidableEq, Repr

/-! ## Weight categorization (`_categorize_weight`, `_infer_seasons_from_weight`) -/

/-- The loop of `_categorize_weight`: first band with
`props['min'] <= weight < props['max']` wins. -/
def categorize_weight_go (w : Int) : List (String × WeightBand) → String
  | [] => "Unknown"
  | (category, props) :: rest =>
    if props.min ≤ w ∧ w < props.max then pyTitle category
    else categorize_weight_go w rest

/-- `FabricProcessor._categorize_weight`. -/
def categorize_weight (w : Int) : String :=
  categorize_weight_go w FABRIC_WEIGHTS

/-- The loop of `_infer_seasons_from_weight`. -/
def infer_seasons_go (w : Int) : List (String × WeightBand) → List String
  | [] => []
  | (_, props) :: rest =>
    if props.min ≤ w ∧ w < props.max then props.seasons
    else infer_seasons_go w rest

/-- `FabricProcessor._infer_seasons_from_weight`. -/
def infer_seasons_from_weight (w : Int) : List String :=
  infer_seasons_go w FABRIC_WEIGHTS

/-! ## Attribute inference (`_infer_composition`, `_infer_pattern`, `_infer_finish`) -/

/-- The lowered `f"{fabric.name or ''} {fabric.description or ''}"` text the
three inference functions match against. -/
def infer_text (f : FabricData) : String :=
  lowerStr ((f.name.getD "") ++ " " ++ (f.description.getD ""))

/-- The match test used by `_infer_composition` and `_infer_pattern`:
`term.replace('_',' ') in text or term.replace('_','') in text`. -/
def vocab_match_both (text term : String) : Bool :=
  strIn (replUnderscoreSpace term) text || strIn (removeUnderscore term) text

/-- The match test used by `_infer_finish`: only `term.replace('_',' ') in text`. -/
def vocab_match_space (text term : String) : Bool :=
  strIn (replUnderscoreSpace term) text

/-- The shared loop shape of the three inference functions: return the
title-cased space-variant of the first matching vocabulary term. -/
def vocab_scan (m : String → Bool) : List String → Option String
  | [] => none
  | term :: rest =>
    if m term then some (pyTitle (replUnderscoreSpace term))
    else vocab_scan m rest

/-- `FabricProcessor._infer_composition`: no default, `None` when no
vocabulary term matches. -/
def infer_composition (f : FabricData) : Option String :=
  vocab_scan (vocab_match_both (infer_text f)) FABRIC_COMPOSITIONS

/-- `FabricProcessor._infer_pattern`: every code path returns a string, with
default `"Solid"` when no vocabulary term matches. -/
def infer_pattern (f : FabricData) : String :=
  (vocab_scan (vocab_match_both (infer_text f)) FABRIC_PATTERNS).getD "Solid"

/-- `FabricProcessor._infer_finish`: default `"Smooth"`. -/
def infer_finish (f : FabricData) : String :=
  (vocab_scan (vocab_match_space (infer_text f)) FABRIC_FINISHES).getD "Smooth"

/-! ## Derived text (`_generate_style_recommendations`,
`_generate_care_instructions`, `_assess_durability`) -/

/-- `FabricProcessor._generate_style_recommendations`. -/
def generate_style_recommendations (f : FabricData) : String :=
  let weightRecs : List String :=
    match f.weight with
    | some w =>
      if truthyI (some w) then
        [if w < 250 then "ideal for unlined or half-lined jackets"
         else if w < 350 then "versatile for year-round suits"
         else "excellent for structured winter suits"]
      else []
    | none => []
  let patternVal : String :=
    if truthyS f.pattern then f.pattern.getD "" else infer_pattern f
  let patternRecs : List String :=
    if patternVal ≠ "" ∧ (lowerStr patternVal = "striped" ∨ lowerStr patternVal = "pinstripe") then
      ["professional business look"]
    else if patternVal ≠ "" ∧ (lowerStr patternVal = "checked" ∨ lowerStr patternVal = "plaid") then
      ["smart casual or country style"]
    else if patternVal ≠ "" ∧ lowerStr patternVal = "solid" then
      ["timeless classic elegance"]
    else []
  pyJoin ", " (weightRecs ++ patternRecs)

/-- `FabricProcessor._generate_care_instructions`. -/
def generate_care_instructions (f : FabricData) : String :=
  let composition : Option String :=
    if truthyS f.composition then f.composition else infer_composition f
  if ¬ truthyS composition then "Professional dry cleaning recommended"
  else
    let cl := lowerStr (composition.getD "")
    if strIn "wool" cl then
      "Dry clean only, steam to remove wrinkles, store with moth protection"
    else if strIn "linen" cl then
      "Dry clean or gentle hand wash, iron while damp, store in breathable garment bag"
    else if strIn "cotton" cl then
      "Dry clean or machine wash cold, tumble dry low, iron as needed"
    else if strIn "silk" cl then
      "Dry clean only, avoid direct sunlight, store in cool dry place"
    else "Dry clean recommended, follow care label instructions"

/-- `FabricProcessor._assess_durability`. -/
def assess_durability (f : FabricData) : String :=
  let composition : Option String :=
    if truthyS f.composition then f.composition else infer_composition f
  if ¬ truthyS composition then "Good"
  else
    let cl := lowerStr (composition.getD "")
    if strIn "wool" cl ∧ ¬ strIn "blend" cl then
      "Excellent - natural resilience and longevity"
    else if strIn "polyester" cl ∨ strIn "synthetic" cl then
      "Very Good - wrinkle-resistant and durable"
    else if strIn "linen" cl then
      "Good - durable but prone to wrinkling"
    else if strIn "cotton" cl then
      "Good - comfortable but may wrinkle"
    else "Good"

/-! ## Chunk building (`_build_*_chunk`, `_create_fabric_chunks`) -/

/-- `FabricProcessor._build_characteristics_chunk`. -/
def build_characteristics_chunk (f : FabricData) : String :=
  pyJoin " | " (("Fabric Code: " ++ f.fabric_code) ::
    ((if truthyS f.name then ["Name: " ++ f.name.getD ""] else [])
     ++ (if truthyS f.composition then ["Composition: " ++ f.composition.getD ""]
         else
           match infer_composition f with
           | some c => if c ≠ "" then ["Composition: " ++ c] else []
           | none => [])
     ++ (match f.weight with
         | some w =>
           if truthyI (some w) then
             ["Weight: " ++ toString w ++ "g/m²",
              "Weight Category: " ++ categorize_weight w]
           else []
         | none => [])
     ++ (if truthyS f.description then ["Description: " ++ f.description.getD ""] else [])))

/-- `FabricProcessor._build_visual_chunk`. -/
def build_visual_chunk (f : FabricData) : String :=
  pyJoin " | " (("Fabric Code: " ++ f.fabric_code) ::
    ((if truthyS f.color then ["Color: " ++ f.color.getD ""] else [])
     ++ (if truthyS f.pattern then ["Pattern: " ++ f.pattern.getD ""]
         else
           let inferred := infer_pattern f
           if inferred ≠ "" then ["Pattern: " ++ inferred] else [])
     ++ (let finish := infer_finish f
         if finish ≠ "" then ["Finish: " ++ finish] else [])
     ++ (if f.image_urls ≠ [] then
           ["Has " ++ toString f.image_urls.length ++ " reference image(s)"]
         else [])))

/-- `FabricProcessor._build_usage_chunk`. -/
def build_usage_chunk (f : FabricData) : String :=
  pyJoin " | " (("Fabric Code: " ++ f.fabric_code) ::
    ((if f.season ≠ [] then ["Seasons: " ++ pyJoin ", " f.season]
      else
        match f.weight with
        | some w =>
          if truthyI (some w) then
            let seasons := infer_seasons_from_weight w
            if seasons ≠ [] then ["Recommended Seasons: " ++ pyJoin ", " seasons] else []
          else []
        | none => [])
     ++ (if truthyS f.category then
           ["Category: " ++ f.category.getD ""]
           ++ (match FABRIC_CATEGORIES.find? (fun kv => kv.1 == f.category.getD "") with
               | some kv => ["Suitable Occasions: " ++ pyJoin ", " kv.2.occasions]
               | none => [])
         else [])
     ++ (let recs := generate_style_recommendations f
         if recs ≠ "" then ["Style Recommendations: " ++ recs] else [])))

/-- `FabricProcessor._build_technical_chunk`. -/
def build_technical_chunk (f : FabricData) : String :=
  pyJoin " | " (("Fabric Code: " ++ f.fabric_code) ::
    ((if truthyS f.care_instructions then ["Care: " ++ f.care_instructions.getD ""]
      else
        let care := generate_care_instructions f
        if care ≠ "" then ["Care Instructions: " ++ care] else [])
     ++ (if truthyS f.supplier then ["Supplier: " ++ f.supplier.getD ""] else [])
     ++ (if truthyS f.origin then ["Origin: " ++ f.origin.getD ""] else [])
     ++ (if truthyS f.stock_status then ["Stock Status: " ++ f.stock_status.getD ""] else [])
     ++ (let durability := assess_durability f
         if durability ≠ "" then ["Durability: " ++ durability] else [])))

/-- `FabricProcessor._create_fabric_chunks`: one chunk per type whose builder
returned a truthy (non-empty) string, in the fixed order characteristics,
visual, usage, technical. -/
def create_fabric_chunks (f : FabricData) : List FabricChunk :=
  (let c := build_characteristics_chunk f
   if c ≠ "" then
     [{ fabric_code := f.fabric_code, chunk_id := f.fabric_code ++ "_characteristics",
        content := c, chunk_type := "characteristics" }]
   else [])
  ++ (let v := build_visual_chunk f
      if v ≠ "" then
        [{ fabric_code := f.fabric_code, chunk_id := f.fabric_code ++ "_visual",
           content := v, chunk_type := "visual" }]
      else [])
  ++ (let u := build_usage_chunk f
      if u ≠ "" then
        [{ fabric_code := f.fabric_code, chunk_id := f.fabric_code ++ "_usage",
           content := u, chunk_type := "usage" }]
      else [])
  ++ (let t := build_technical_chunk f
      if t ≠ "" then
        [{ fabric_code := f.fabric_code, chunk_id := f.fabric_code ++ "_technical",
           content := t, chunk_type := "technical" }]
      else [])

/-! ## Embedding client (`_generate_embeddings`) -/

/-- The attachment loop of `_generate_embeddings`:
`for i, chunk in enumerate(chunks): chunk.embedding = response.data[i].embedding`.
If the response has fewer vectors than chunks, the Python loop raises
`IndexError` at the first missing index, so chunks from that index on keep
their previous embedding; the surrounding `except` then returns the list. -/
def attach_embeddings (data : List (List ℚ)) : List FabricChunk → List FabricChunk
  | [] => []
  | c :: cs =>
    match data with
    | [] => c :: cs
    | v :: vs => { c with embedding := some v } :: attach_embeddings vs cs

/-- `FabricProcessor._generate_embeddings`, with the awaited service call
modelled by its outcome `response` (`Except.error` = any network/service
exception, `Except.ok` = the ordered list of returned vectors).  The whole
body is wrapped in `try/except` whose handler logs and `return chunks`, so
the function always returns normally (`Except.ok`); no exception reaches
the caller. -/
def generate_embeddings (response : Except String (List (List ℚ)))
    (chunks : List FabricChunk) : Except String (List FabricChunk) :=
  match response with
  | Except.error _ => Except.ok chunks
  | Except.ok data => Except.ok (attach_embeddings data chunks)

/-! ## Similarity search (`similarity_search`) -/

/-- Python `top_k = top_k or config.RAG_TOP_K_RESULTS`: `None` *and* `0`
are falsy and fall back to the configured default. -/
def effective_top_k (top_k : Option Nat) : Nat :=
  match top_k with
  | none => RAG_TOP_K_RESULTS
  | some n => if n = 0 then RAG_TOP_K_RESULTS else n

/-- The candidate loop of `similarity_search`: chunks with a truthy
embedding whose score reaches the threshold, paired with their score, in
input order.  `score` abstracts the numpy cosine-similarity computation
against the query embedding (floats are not modelled); `threshold` is
`config.RAG_SIMILARITY_THRESHOLD`. -/
def search_candidates (score : FabricChunk → ℚ) (threshold : ℚ)
    (chunks : List FabricChunk) : List (FabricChunk × ℚ) :=
  chunks.filterMap (fun c =>
    if truthyL c.embedding then
      (if threshold ≤ score c then some (c, score c) else none)
    else none)

/-- Stable descending insertion by score: the new pair goes in front of the
first existing pair whose score is not larger. -/
def insert_desc (p : FabricChunk × ℚ) :
    List (FabricChunk × ℚ) → List (FabricChunk × ℚ)
  | [] => [p]
  | q :: qs => if q.2 ≤ p.2 then p :: q :: qs else q :: insert_desc p qs

/-- `results.sort(key=lambda x: x[1], reverse=True)`: Python's `list.sort`
is a stable descending sort by score, modelled by stable insertion sort
(same function: the stable sort of a list is unique). -/
def sort_desc : List (FabricChunk × ℚ) → List (FabricChunk × ℚ)
  | [] => []
  | p :: ps => insert_desc p (sort_desc ps)

/-- `FabricProcessor.similarity_search` (the pure part: the query-embedding
service call is abstracted into `score`, and the `try/except`/unconfigured
paths that return `[]` are outside every claim). -/
def similarity_search (score : FabricChunk → ℚ) (threshold : ℚ)
    (top_k : Option Nat) (chunks : List FabricChunk) : List (FabricChunk × ℚ) :=
  (sort_desc (search_candidates score threshold chunks)).take (effective_top_k top_k)

/-! ## Outfit generator (`modules/outfit_generator.py`) -/

/-- The `OutfitSpec` dataclass. -/
structure OutfitSpec where
  occasion : String
  season : String
  style_preferences : List String
  color_preferences : Option (List String) := none
  pattern_preferences : Option (List String) := none
  fabrics : Option (List FabricData) := none
  additional_notes : Option String := none
deriving DecidableEq, Repr

/-- The `occasion_map` dictionary of `_get_occasion_description`. -/
def occasion_map : List (String × String) :=
  [("wedding", "elegant wedding attire, formal ceremony suit"),
   ("business", "professional business suit, corporate attire"),
   ("formal_event", "black-tie formal evening wear"),
   ("gala", "sophisticated gala evening suit"),
   ("casual", "smart casual tailored outfit"),
   ("smart_casual", "refined smart casual ensemble"),
   ("office", "modern office suit, business professional"),
   ("weekend", "relaxed weekend tailored look")]

/-- `OutfitGenerator._get_occasion_description`:
`occasion_map.get(occasion.lower(), f'{occasion} outfit')`. -/
def get_occasion_description (occasion : String) : String :=
  match occasion_map.find? (fun kv => kv.1 == lowerStr occasion) with
  | some kv => kv.2
  | none => occasion ++ " outfit"

/-- The `season_map` dictionary of `_get_season_description`. -/
def season_map : List (String × String) :=
  [("spring", "spring/summer season, lighter construction"),
   ("summer", "summer season, breathable fabric, unlined or half-lined"),
   ("fall", "fall/autumn season, transitional weight"),
   ("winter", "winter season, warm and structured")]

/-- `OutfitGenerator._get_season_description`: default `''`. -/
def get_season_description (season : String) : String :=
  match season_map.find? (fun kv => kv.1 == lowerStr season) with
  | some kv => kv.2
  | none => ""

/-- `OutfitGenerator._fabric_to_description`. -/
def fabric_to_description (f : FabricData) : String :=
  let parts : List String :=
    (if truthyS f.composition then [lowerStr (f.composition.getD "")] else [])
    ++ (match f.weight with
        | some w =>
          if truthyI (some w) then
            [if w < 250 then "lightweight"
             else if w < 350 then "medium-weight"
             else "heavyweight"]
          else []
        | none => [])
    ++ (if truthyS f.pattern then [lowerStr (f.pattern.getD "")] else [])
    ++ (if truthyS f.color then [lowerStr (f.color.getD "")] else [])
  if parts = [] then "premium " ++ f.fabric_code ++ " fabric"
  else pyJoin " " parts

/-- The fixed intro sentence of `_build_dalle_prompt`. -/
def DALLE_INTRO : String :=
  "Professional fashion photography of a complete men's tailored outfit,"

/-- The fixed photography-style suffix of `_build_dalle_prompt`. -/
def DALLE_SUFFIX : String :=
  "displayed on a mannequin or laid flat, studio lighting, high-end fashion photography, detailed texture visible, professional styling, luxury menswear aesthetic"

/-- The `prompt_parts` list assembled by `_build_dalle_prompt`, in the
code's append order. -/
def dalle_prompt_parts (spec : OutfitSpec) : List String :=
  [DALLE_INTRO]
  ++ [get_occasion_description spec.occasion]
  ++ (match spec.fabrics with
      | some fabrics =>
        if fabrics ≠ [] then
          let descs := (fabrics.take 2).filterMap (fun f =>
            let d := fabric_to_description f
            if d ≠ "" then some d else none)
          if descs ≠ [] then ["made from " ++ pyJoin ", " descs] else []
        else []
      | none => [])
  ++ (match spec.color_preferences with
      | some (c :: cs) => ["in " ++ pyJoin ", " ((c :: cs).take 3) ++ " tones"]
      | _ => [])
  ++ (match spec.pattern_preferences with
      | some (p :: ps) => ["with " ++ pyJoin ", " ((p :: ps).take 2) ++ " pattern"]
      | _ => [])
  ++ (let seasonDesc := get_season_description spec.season
      if seasonDesc ≠ "" then [seasonDesc] else [])
  ++ (if spec.style_preferences ≠ [] then
        [pyJoin ", " (spec.style_preferences.take 3) ++ " style"]
      else [])
  ++ (match spec.additional_notes with
      | some notes => if notes ≠ "" then [notes] else []
      | none => [])
  ++ [DALLE_SUFFIX]

/-- `OutfitGenerator._build_dalle_prompt`: join the parts with spaces, then
hard-truncate to 997 characters plus `"..."` when the result exceeds 1000
characters. -/
def build_dalle_prompt (spec : OutfitSpec) : String :=
  let prompt := pyJoin " " (dalle_prompt_parts spec)
  if 1000 < prompt.length then strTake prompt 997 ++ "..." else prompt

/-- The query-construction prefix of `OutfitGenerator._find_suitable_fabrics`
(`query_parts` assembly and `' '.join`), before any I/O happens. -/
def build_fabric_query (spec : OutfitSpec) : String :=
  pyJoin " " ((spec.occasion ++ " occasion") :: (spec.season ++ " season") ::
    ((match spec.color_preferences with
      | some (c :: cs) => [pyJoin ", " (c :: cs) ++ " color"]
      | _ => [])
     ++ (match spec.pattern_preferences with
         | some (p :: ps) => [pyJoin ", " (p :: ps) ++ " pattern"]
         | _ => [])
     ++ (if spec.style_preferences ≠ [] then
           [pyJoin ", " spec.style_preferences ++ " style"]
         else [])))

/-- The post-search tail of `OutfitGenerator._find_suitable_fabrics`:
`fabric_codes = list(set(chunk.fabric_code for chunk, _ in results))` (a
Python set, whose iteration order is unspecified but which is used only
for membership below), then the stored fabric file is filtered in *its own
order* to records whose code is in that set, and truncated to 3. -/
def select_suitable_fabrics (results : List (FabricChunk × ℚ))
    (stored : List FabricData) : List FabricData :=
  let fabric_codes := results.map (fun r => r.1.fabric_code)
  (stored.filter (fun f => fabric_codes.contains f.fabric_code)).take 3

/-! ## Concrete records used by counterexamples and witnesses -/

/-- Scenario B record: only a code and the name `"Plain Grey"`. -/
def fabricB : FabricData := { fabric_code := "X1", name := some "Plain Grey" }

/-- A record whose name carries upper-case vocabulary terms. -/
def fabricUpper : FabricData := { fabric_code := "T2", name := some "NAVY Striped WOOL" }

/-- A chunk that already carries an embedding. -/
def chunkEmbedded : FabricChunk :=
  { fabric_code := "A", chunk_id := "A_visual", content := "x",
    chunk_type := "visual", embedding := some [1] }

/-- A chunk awaiting embedding. -/
def chunkPending : FabricChunk :=
  { fabric_code := "P", chunk_id := "P_visual", content := "p",
    chunk_type := "visual", embedding := none }

/-- Stored records for the retrieval counterexample: `recA` appears first in
the stored fabric file. -/
def recA : FabricData := { fabric_code := "A" }

/-- Second stored record. -/
def recB : FabricData := { fabric_code := "B" }

/-- A chunk-level hit for `recA`. -/
def hitA : FabricChunk :=
  { fabric_code := "A", chunk_id := "A_usage", content := "a",
    chunk_type := "usage", embedding := some [1] }

/-- A chunk-level hit for `recB`. -/
def hitB : FabricChunk :=
  { fabric_code := "B", chunk_id := "B_usage", content := "b",
    chunk_type := "usage", embedding := some [1] }

/-- Preference object with every optional field present. -/
def specFull : OutfitSpec :=
  { occasion := "wedding", season := "summer", style_preferences := ["classic"],
    color_preferences := some ["navy"], pattern_preferences := some ["solid"] }

/-! ## Helper lemmas -/

/-- Joining a non-empty list starts with its head. -/
theorem pyJoin_cons_eq (sep a : String) (l : List String) :
    ∃ t, pyJoin sep (a :: l) = a ++ t := by
  cases l with
  | nil => exact ⟨"", by simp [pyJoin]⟩
  | cons b bs => exact ⟨sep ++ pyJoin sep (b :: bs), by simp [pyJoin, String.append_assoc]⟩

/-- A string extending a non-empty prefix is non-empty. -/
theorem append_ne_empty (a t : String) (h : a.data ≠ []) : a ++ t ≠ "" := by
  intro he
  apply h
  have hd : (a ++ t).data = a.data ++ t.data := String.data_append a t
  rw [he] at hd
  exact (List.append_eq_nil.mp hd.symm).1

/-- `"Fabric Code: " ++ code` is never the empty string. -/
theorem code_prefix_ne_empty (code t : String) :
    (("Fabric Code: " ++ code) ++ t) ≠ "" := by
  apply append_ne_empty
  have : ("Fabric Code: " ++ code).data = "Fabric Code: ".data ++ code.data :=
    String.data_append _ _
  rw [this]
  simp

/-- The characteristics builder output starts with the fabric-code part. -/
theorem build_characteristics_chunk_head (f : FabricData) :
    ∃ t, build_characteristics_chunk f = ("Fabric Code: " ++ f.fabric_code) ++ t :=
  pyJoin_cons_eq _ _ _

/-- The visual builder output starts with the fabric-code part. -/
theorem build_visual_chunk_head (f : FabricData) :
    ∃ t, build_visual_chunk f = ("Fabric Code: " ++ f.fabric_code) ++ t :=
  pyJoin_cons_eq _ _ _

/-- The usage builder output starts with the fabric-code part. -/
theorem build_usage_chunk_head (f : FabricData) :
    ∃ t, build_usage_chunk f = ("Fabric Code: " ++ f.fabric_code) ++ t :=
  pyJoin_cons_eq _ _ _

/-- The technical builder output starts with the fabric-code part. -/
theorem build_technical_chunk_head (f : FabricData) :
    ∃ t, build_technical_chunk f = ("Fabric Code: " ++ f.fabric_code) ++ t :=
  pyJoin_cons_eq _ _ _

/-- The characteristics builder never returns an empty string. -/
theorem build_characteristics_chunk_ne (f : FabricData) :
    build_characteristics_chunk f ≠ "" := by
  obtain ⟨t, h⟩ := build_characteristics_chunk_head f
  rw [h]; exact code_prefix_ne_empty _ _

/-- The visual builder never returns an empty string. -/
theorem build_visual_chunk_ne (f : FabricData) : build_visual_chunk f ≠ "" := by
  obtain ⟨t, h⟩ := build_visual_chunk_head f
  rw [h]; exact code_prefix_ne_empty _ _

/-- The usage builder never returns an empty string. -/
theorem build_usage_chunk_ne (f : FabricData) : build_usage_chunk f ≠ "" := by
  obtain ⟨t, h⟩ := build_usage_chunk_head f
  rw [h]; exact code_prefix_ne_empty _ _

/-- The technical builder never returns an empty string. -/
theorem build_technical_chunk_ne (f : FabricData) : build_technical_chunk f ≠ "" := by
  obtain ⟨t, h⟩ := build_technical_chunk_head f
  rw [h]; exact code_prefix_ne_empty _ _

/-- Because no builder can return an empty string, the truthiness guards in
`_create_fabric_chunks` always pass: every record yields exactly the four
chunks, in the fixed order. -/
theorem create_fabric_chunks_eq (f : FabricData) :
    create_fabric_chunks f =
      [{ fabric_code := f.fabric_code, chunk_id := f.fabric_code ++ "_characteristics",
         content := build_characteristics_chunk f, chunk_type := "characteristics" },
       { fabric_code := f.fabric_code, chunk_id := f.fabric_code ++ "_visual",
         content := build_visual_chunk f, chunk_type := "visual" },
       { fabric_code := f.fabric_code, chunk_id := f.fabric_code ++ "_usage",
         content := build_usage_chunk f, chunk_type := "usage" },
       { fabric_code := f.fabric_code, chunk_id := f.fabric_code ++ "_technical",
         content := build_technical_chunk f, chunk_type := "technical" }] := by
  simp only [create_fabric_chunks,
    if_pos (build_characteristics_chunk_ne f), if_pos (build_visual_chunk_ne f),
    if_pos (build_usage_chunk_ne f), if_pos (build_technical_chunk_ne f)]
  rfl

/-- `attach_embeddings` never changes the number of chunks. -/
theorem attach_embeddings_length (data : List (List ℚ)) (chunks : List FabricChunk) :
    (attach_embeddings data chunks).length = chunks.length := by
  induction chunks generalizing data with
  | nil => simp [attach_embeddings]
  | cons c cs ih =>
    cases data with
    | nil => simp [attach_embeddings]
    | cons v vs => simp [attach_embeddings, ih]

/-- Index-to-index behaviour of the attachment loop when the response has
enough vectors. -/
theorem attach_embeddings_get (data : List (List ℚ)) (chunks : List FabricChunk)
    (i : Nat) (ho : i < (attach_embeddings data chunks).length)
    (hc : i < chunks.length) (hd : i < data.length) :
    (attach_embeddings data chunks).get ⟨i, ho⟩ =
      { chunks.get ⟨i, hc⟩ with embedding := some (data.get ⟨i, hd⟩) } := by
  induction chunks generalizing data i with
  | nil => exact absurd hc (by simp)
  | cons c cs ih =>
    cases data with
    | nil => exact absurd hd (by simp)
    | cons v vs =>
      cases i with
      | zero => rfl
      | succ j =>
        have ho' : j < (attach_embeddings vs cs).length := by
          simpa [attach_embeddings] using ho
        exact ih vs j ho' (Nat.lt_of_succ_lt_succ hc) (Nat.lt_of_succ_lt_succ hd)

/-- Inserting is a permutation of consing. -/
theorem insert_desc_perm (p : FabricChunk × ℚ) (l : List (FabricChunk × ℚ)) :
    (insert_desc p l).Perm (p :: l) := by
  induction l with
  | nil => exact List.Perm.refl _
  | cons q qs ih =>
    by_cases h : q.2 ≤ p.2
    · simp [insert_desc, h]
    · simp only [insert_desc, if_neg h]
      exact (ih.cons q).trans (List.Perm.swap p q qs)

/-- The stable sort permutes its input. -/
theorem sort_desc_perm (l : List (FabricChunk × ℚ)) : (sort_desc l).Perm l := by
  induction l with
  | nil => exact List.Perm.refl _
  | cons p ps ih => exact (insert_desc_perm p (sort_desc ps)).trans (ih.cons p)

/-- Inserting into a non-increasing list keeps it non-increasing. -/
theorem insert_desc_pairwise (p : FabricChunk × ℚ) (l : List (FabricChunk × ℚ))
    (h : l.Pairwise (fun a b => b.2 ≤ a.2)) :
    (insert_desc p l).Pairwise (fun a b => b.2 ≤ a.2) := by
  induction l with
  | nil => simp [insert_desc]
  | cons q qs ih =>
    rcases List.pairwise_cons.mp h with ⟨hq, hqs⟩
    by_cases hle : q.2 ≤ p.2
    · simp only [insert_desc, if_pos hle]
      refine List.pairwise_cons.mpr ⟨?_, h⟩
      intro r hr
      rcases List.mem_cons.mp hr with heq | hmem
      · subst heq; exact hle
      · exact le_trans (hq r hmem) hle
    · simp only [insert_desc, if_neg hle]
      refine List.pairwise_cons.mpr ⟨?_, ih hqs⟩
      intro r hr
      have hmem' : r ∈ p :: qs := (insert_desc_perm p qs).mem_iff.mp hr
      rcases List.mem_cons.mp hmem' with heq | hmem
      · subst heq; exact le_of_lt (lt_of_not_le hle)
      · exact hq r hmem

/-- The stable sort is non-increasing by score. -/
theorem sort_desc_pairwise (l : List (FabricChunk × ℚ)) :
    (sort_desc l).Pairwise (fun a b => b.2 ≤ a.2) := by
  induction l with
  | nil => simp [sort_desc]
  | cons p ps ih => exact insert_desc_pairwise p (sort_desc ps) ih

/-- Inserting a pair of score `s` puts it in front of every pair of score
`s` already present (the elements it skips all have strictly larger
scores). -/
theorem insert_desc_filter_eq (p : FabricChunk × ℚ) (l : List (FabricChunk × ℚ))
    (s : ℚ) (hp : p.2 = s) :
    (insert_desc p l).filter (fun q => decide (q.2 = s)) =
      p :: l.filter (fun q => decide (q.2 = s)) := by
  induction l with
  | nil => simp [insert_desc, hp]
  | cons q qs ih =>
    by_cases hle : q.2 ≤ p.2
    · simp only [insert_desc, if_pos hle]
      simp [hp]
    · have hqs : ¬ q.2 = s := fun he => hle (le_of_eq (he.trans hp.symm))
      simp only [insert_desc, if_neg hle]
      simp [List.filter_cons, hqs, ih]

/-- Inserting a pair of a different score leaves a score class untouched. -/
theorem insert_desc_filter_ne (p : FabricChunk × ℚ) (l : List (FabricChunk × ℚ))
    (s : ℚ) (hp : p.2 ≠ s) :
    (insert_desc p l).filter (fun q => decide (q.2 = s)) =
      l.filter (fun q => decide (q.2 = s)) := by
  induction l with
  | nil => simp [insert_desc, hp]
  | cons q qs ih =>
    by_cases hle : q.2 ≤ p.2
    · simp only [insert_desc, if_pos hle]
      simp [List.filter_cons, hp]
    · simp only [insert_desc, if_neg hle]
      simp [List.filter_cons, ih]

/-- Stability: sorting preserves each score class in input order. -/
theorem sort_desc_filter (l : List (FabricChunk × ℚ)) (s : ℚ) :
    (sort_desc l).filter (fun q => decide (q.2 = s)) =
      l.filter (fun q => decide (q.2 = s)) := by
  induction l with
  | nil => rfl
  | cons p ps ih =>
    by_cases hp : p.2 = s
    · rw [show sort_desc (p :: ps) = insert_desc p (sort_desc ps) from rfl,
        insert_desc_filter_eq p (sort_desc ps) s hp, ih]
      simp [List.filter_cons, hp]
    · rw [show sort_desc (p :: ps) = insert_desc p (sort_desc ps) from rfl,
        insert_desc_filter_ne p (sort_desc ps) s hp, ih]
      simp [List.filter_cons, hp]

/-- Every candidate respects the threshold and carries its own score. -/
theorem mem_search_candidates (score : FabricChunk → ℚ) (threshold : ℚ)
    (chunks : List FabricChunk) (p : FabricChunk × ℚ)
    (hp : p ∈ search_candidates score threshold chunks) :
    threshold ≤ p.2 ∧ p.2 = score p.1 := by
  rcases List.mem_filterMap.mp hp with ⟨c, _, hc⟩
  by_cases hemb : truthyL c.embedding
  · rw [if_pos hemb] at hc
    by_cases hthr : threshold ≤ score c
    · rw [if_pos hthr] at hc
      cases hc
      exact ⟨hthr, rfl⟩
    · rw [if_neg hthr] at hc
      cases hc
  · rw [if_neg hemb] at hc
    cases hc

/-- `vocab_scan` returns the transform of the first matching term. -/
theorem vocab_scan_eq_find (m : String → Bool) (l : List String) :
    vocab_scan m l = (l.find? m).map (fun t => pyTitle (replUnderscoreSpace t)) := by
  induction l with
  | nil => rfl
  | cons t ts ih =>
    by_cases h : m t
    · simp [vocab_scan, h, List.find?_cons_of_pos _ h]
    · simp only [vocab_scan, if_neg h]
      rw [List.find?_cons_of_neg _ h, ih]

/-! ## Claim theorems -/

/-- C2 (counterexample): the claim reads the heavy band as the closed
interval [350, 600], but `_categorize_weight` tests `min <= w < max` with
`max = 600`, so weight 600 falls in no band: it categorizes as `"Unknown"`
(not as heavyweight) and infers no seasons. -/
theorem categorize_weight_600_cex :
    categorize_weight 600 = "Unknown" ∧ categorize_weight 600 ≠ "Heavyweight" ∧
      infer_seasons_from_weight 600 = [] := by
  refine ⟨by decide, by decide, by decide⟩

/-- C2 (amended): weight categorization and season inference use the three
half-open disjoint bands [0,250) → Lightweight/{spring,summer},
[250,350) → Medium/{spring,fall}, [350,600) → Heavyweight/{fall,winter};
any weight in no band (negative, or ≥ 600) gives `"Unknown"` and the empty
season list; in particular 249 is lightweight, 250 and 349 medium, and 350
heavyweight. -/
theorem categorize_weight_half_open_bands :
    (∀ w : Int,
      categorize_weight w =
        (if 0 ≤ w ∧ w < 250 then "Lightweight"
         else if 250 ≤ w ∧ w < 350 then "Medium"
         else if 350 ≤ w ∧ w < 600 then "Heavyweight"
         else "Unknown") ∧
      infer_seasons_from_weight w =
        (if 0 ≤ w ∧ w < 250 then ["spring", "summer"]
         else if 250 ≤ w ∧ w < 350 then ["spring", "fall"]
         else if 350 ≤ w ∧ w < 600 then ["fall", "winter"]
         else [])) ∧
    categorize_weight 249 = "Lightweight" ∧ categorize_weight 250 = "Medium" ∧
    categorize_weight 349 = "Medium" ∧ categorize_weight 350 = "Heavyweight" ∧
    infer_seasons_from_weight 249 = ["spring", "summer"] ∧
    infer_seasons_from_weight 250 = ["spring", "fall"] ∧
    infer_seasons_from_weight 350 = ["fall", "winter"] := by
  refine ⟨fun w => ⟨rfl, rfl⟩, by decide, by decide, by decide, by decide,
    by decide, by decide, by decide⟩

/-- C3 (counterexample): when the embedding service call fails, the claim
says the client raises `EmbeddingServiceUnavailable` to its caller; but
`_generate_embeddings` wraps the call in `try/except`, logs, and returns
the chunk list normally — the caller receives an ordinary return value
(`Except.ok`), not an exception (and the pending chunk still has
`embedding = none`). -/
theorem generate_embeddings_error_cex :
    generate_embeddings (Except.error "service unavailable") [chunkPending] =
      Except.ok [chunkPending] ∧ chunkPending.embedding = none := by
  exact ⟨rfl, rfl⟩

/-- C3 (amended): on any service failure for any batch, the Embedding
Client catches the exception and returns the batch unchanged — no chunk
gains an embedding (each keeps exactly the embedding it had, `none` for
pending chunks), and no error condition propagates to the caller. -/
theorem generate_embeddings_error_swallowed (e : String) (chunks : List FabricChunk) :
    generate_embeddings (Except.error e) chunks = Except.ok chunks := rfl

/-- C5: when the service responds with an equal-length ordered vector list,
the returned batch has the same length and its i-th element is the i-th
input chunk with the i-th response vector attached — no reordering within
a batch. -/
theorem generate_embeddings_order_preserved (chunks : List FabricChunk)
    (data : List (List ℚ)) (h : data.length = chunks.length) :
    ∃ out, generate_embeddings (Except.ok data) chunks = Except.ok out ∧
      out.length = chunks.length ∧ out.length = data.length ∧
      ∀ (i : Nat) (ho : i < out.length) (hc : i < chunks.length)
        (hd : i < data.length),
        out.get ⟨i, ho⟩ =
          { chunks.get ⟨i, hc⟩ with embedding := some (data.get ⟨i, hd⟩) } := by
  refine ⟨attach_embeddings data chunks, rfl, attach_embeddings_length data chunks,
    by rw [attach_embeddings_length data chunks, h], ?_⟩
  intro i ho hc hd
  exact attach_embeddings_get data chunks i ho hc hd

/-- C5 (witness): the order-preservation theorem applied to a concrete
one-chunk batch with a one-vector response. -/
theorem generate_embeddings_order_preserved_witness :
    ∃ out, generate_embeddings (Except.ok [[(1 : ℚ)]]) [chunkPending] = Except.ok out ∧
      out.length = [chunkPending].length ∧ out.length = [[(1 : ℚ)]].length ∧
      ∀ (i : Nat) (ho : i < out.length) (hc : i < [chunkPending].length)
        (hd : i < [[(1 : ℚ)]].length),
        out.get ⟨i, ho⟩ =
          { [chunkPending].get ⟨i, hc⟩ with
              embedding := some ([[(1 : ℚ)]].get ⟨i, hd⟩) } :=
  generate_embeddings_order_preserved [chunkPending] [[(1 : ℚ)]] rfl

/-- C10: every chunk emitted by `_create_fabric_chunks` has content that
starts with `"Fabric Code: "` followed by the record's code, and each of
the four chunk-content builders returns a non-empty string for every
record. -/
theorem chunk_content_code_prefix_nonempty (f : FabricData) :
    (∀ c ∈ create_fabric_chunks f,
        (∃ t, c.content = ("Fabric Code: " ++ f.fabric_code) ++ t) ∧ c.content ≠ "") ∧
    build_characteristics_chunk f ≠ "" ∧ build_visual_chunk f ≠ "" ∧
    build_usage_chunk f ≠ "" ∧ build_technical_chunk f ≠ "" := by
  refine ⟨?_, build_characteristics_chunk_ne f, build_visual_chunk_ne f,
    build_usage_chunk_ne f, build_technical_chunk_ne f⟩
  intro c hc
  rw [create_fabric_chunks_eq] at hc
  simp only [List.mem_cons, List.not_mem_nil, or_false] at hc
  rcases hc with h | h | h | h <;> subst h
  · exact ⟨build_characteristics_chunk_head f, build_characteristics_chunk_ne f⟩
  · exact ⟨build_visual_chunk_head f, build_visual_chunk_ne f⟩
  · exact ⟨build_usage_chunk_head f, build_usage_chunk_ne f⟩
  · exact ⟨build_technical_chunk_head f, build_technical_chunk_ne f⟩

/-- C4 (counterexample): for the record with only `code = "X1"` and
`name = "Plain Grey"` the claim says the usage chunk is omitted; but the
usage builder always emits the fabric-code part and, here, a style
recommendation derived from the defaulted pattern `"Solid"`, so
`_create_fabric_chunks` emits a usage chunk. -/
theorem scenario_b_usage_chunk_cex :
    ((create_fabric_chunks fabricB).filter (fun c => c.chunk_type == "usage")).map
        (fun c => c.content) =
      ["Fabric Code: X1 | Style Recommendations: timeless classic elegance"] := by
  decide

/-- C4 (amended): every builder starts its content with the fabric code, so
content is never empty and all four chunk types are emitted for every
record (the "at least one contributing attribute" guard never actually
excludes a chunk); for the code+name-only record of Scenario B the
characteristics chunk is produced, the visual chunk carries inferred
pattern "Solid" and finish "Smooth", and the usage and technical chunks
are produced as well. -/
theorem create_fabric_chunks_all_types :
    (∀ f : FabricData,
      (create_fabric_chunks f).map (fun c => c.chunk_type) =
        ["characteristics", "visual", "usage", "technical"] ∧
      ∀ c ∈ create_fabric_chunks f, c.content ≠ "") ∧
    (create_fabric_chunks fabricB).map (fun c => c.content) =
      ["Fabric Code: X1 | Name: Plain Grey",
       "Fabric Code: X1 | Pattern: Solid | Finish: Smooth",
       "Fabric Code: X1 | Style Recommendations: timeless classic elegance",
       "Fabric Code: X1 | Care Instructions: Professional dry cleaning recommended | Supplier: Formens | Durability: Good"] := by
  refine ⟨fun f => ⟨by rw [create_fabric_chunks_eq]; rfl, ?_⟩, by decide⟩
  intro c hc
  rw [create_fabric_chunks_eq] at hc
  simp only [List.mem_cons, List.not_mem_nil, or_false] at hc
  rcases hc with h | h | h | h <;> subst h
  · exact build_characteristics_chunk_ne f
  · exact build_visual_chunk_ne f
  · exact build_usage_chunk_ne f
  · exact build_technical_chunk_ne f

/-- C1 (counterexample): the claim promises at most `top_k` results for
every query, but `top_k = top_k or config.RAG_TOP_K_RESULTS` treats a
passed `top_k = 0` as falsy and silently falls back to the default 5, so a
call with `top_k = 0` can return a result. -/
theorem similarity_search_topk_zero_cex :
    similarity_search (fun _ => 1) 0 (some 0) [chunkEmbedded] = [(chunkEmbedded, 1)] ∧
      ¬ ((similarity_search (fun _ => 1) 0 (some 0) [chunkEmbedded]).length ≤ 0) := by
  exact ⟨by decide, by decide⟩

/-- C1 (amended): for every query score function, threshold, `top_k`
argument and chunk list, `similarity_search` returns only pairs whose
score reaches the threshold, at most `effective_top_k top_k` pairs (the
passed `top_k` when positive; the configured default 5 when `top_k` is
omitted or 0), sorted non-increasing by score, as a prefix of a stable
descending sort of the candidates: score ties stay in candidate (input)
order, earliest chunk first. -/
theorem similarity_search_threshold_topk_sorted (score : FabricChunk → ℚ)
    (threshold : ℚ) (top_k : Option Nat) (chunks : List FabricChunk) :
    (∀ p ∈ similarity_search score threshold top_k chunks,
        threshold ≤ p.2 ∧ p.2 = score p.1) ∧
    (similarity_search score threshold top_k chunks).length ≤ effective_top_k top_k ∧
    (similarity_search score threshold top_k chunks).Pairwise (fun a b => b.2 ≤ a.2) ∧
    ∃ sorted : List (FabricChunk × ℚ),
      similarity_search score threshold top_k chunks =
        sorted.take (effective_top_k top_k) ∧
      sorted.Perm (search_candidates score threshold chunks) ∧
      sorted.Pairwise (fun a b => b.2 ≤ a.2) ∧
      ∀ s : ℚ, sorted.filter (fun q => decide (q.2 = s)) =
        (search_candidates score threshold chunks).filter (fun q => decide (q.2 = s)) := by
  refine ⟨?_, ?_, ?_, sort_desc (search_candidates score threshold chunks), rfl,
    sort_desc_perm _, sort_desc_pairwise _, fun s => sort_desc_filter _ s⟩
  · intro p hp
    have hp' : p ∈ sort_desc (search_candidates score threshold chunks) :=
      List.mem_of_mem_take hp
    have hp'' : p ∈ search_candidates score threshold chunks :=
      (sort_desc_perm _).mem_iff.mp hp'
    exact mem_search_candidates score threshold chunks p hp''
  · exact List.length_take_le _ _
  · exact (sort_desc_pairwise _).sublist (List.take_sublist _ _)

/-- C6: composition, pattern and finish inference scan their closed
vocabulary in list order over the lower-cased name-plus-description text
and return the (title-cased, underscore-to-space) first matching term;
with no match, pattern defaults to "Solid", finish defaults to "Smooth"
and composition returns no value.  Concretely: the record
`{code:"X1", name:"Plain Grey"}` matches no term and gets the defaults,
and upper-case text (`"NAVY Striped WOOL"`) still matches, the match
being case-insensitive. -/
theorem infer_first_match_defaults :
    (∀ f : FabricData,
      infer_composition f =
        (FABRIC_COMPOSITIONS.find? (vocab_match_both (infer_text f))).map
          (fun t => pyTitle (replUnderscoreSpace t)) ∧
      infer_pattern f =
        ((FABRIC_PATTERNS.find? (vocab_match_both (infer_text f))).map
          (fun t => pyTitle (replUnderscoreSpace t))).getD "Solid" ∧
      infer_finish f =
        ((FABRIC_FINISHES.find? (vocab_match_space (infer_text f))).map
          (fun t => pyTitle (replUnderscoreSpace t))).getD "Smooth") ∧
    infer_composition fabricB = none ∧ infer_pattern fabricB = "Solid" ∧
    infer_finish fabricB = "Smooth" ∧
    infer_pattern fabricUpper = "Striped" ∧
    infer_composition fabricUpper = some "Wool" := by
  refine ⟨fun f => ⟨vocab_scan_eq_find _ _, ?_, ?_⟩,
    by decide, by decide, by decide, by decide, by decide⟩
  · rw [infer_pattern, vocab_scan_eq_find]
  · rw [infer_finish, vocab_scan_eq_find]

/-- C8 (counterexample): with every preference present, the query string
produced by `_find_suitable_fabrics` lists color and pattern *before*
style — not in the claimed priority order occasion, season, style, color,
pattern. -/
theorem fabric_query_order_cex :
    build_fabric_query specFull =
      "wedding occasion summer season navy color solid pattern classic style" ∧
    build_fabric_query specFull ≠
      "wedding occasion summer season classic style navy color solid pattern" := by
  exact ⟨by decide, by decide⟩

/-- C8 (amended): the query builder serializes the preference object into
one space-joined string in the fixed order occasion, season, color,
pattern, style; the occasion and season segments are always present, and
each optional segment is omitted entirely (no empty placeholder) when its
field is absent (`None`) or an empty list. -/
theorem fabric_query_fixed_order (spec : OutfitSpec) :
    ∃ cseg pseg sseg : List String,
      build_fabric_query spec =
        pyJoin " " ((spec.occasion ++ " occasion") :: (spec.season ++ " season") ::
          (cseg ++ pseg ++ sseg)) ∧
      (match spec.color_preferences with
       | some (c :: cs) => cseg = [pyJoin ", " (c :: cs) ++ " color"]
       | _ => cseg = []) ∧
      (match spec.pattern_preferences with
       | some (p :: ps) => pseg = [pyJoin ", " (p :: ps) ++ " pattern"]
       | _ => pseg = []) ∧
      (match spec.style_preferences with
       | s :: ss => sseg = [pyJoin ", " (s :: ss) ++ " style"]
       | [] => sseg = []) ∧
      cseg.length ≤ 1 ∧ pseg.length ≤ 1 ∧ sseg.length ≤ 1 := by
  refine ⟨(match spec.color_preferences with
           | some (c :: cs) => [pyJoin ", " (c :: cs) ++ " color"]
           | _ => []),
          (match spec.pattern_preferences with
           | some (p :: ps) => [pyJoin ", " (p :: ps) ++ " pattern"]
           | _ => []),
          (match spec.style_preferences with
           | s :: ss => [pyJoin ", " (s :: ss) ++ " style"]
           | [] => []), ?_, ?_, ?_, ?_, ?_, ?_, ?_⟩
  · rw [build_fabric_query]
    rcases spec with ⟨occ, sea, sty, col, pat, fab, nts⟩
    rcases col with _ | ⟨_ | ⟨c, cs⟩⟩ <;> rcases pat with _ | ⟨_ | ⟨p, ps⟩⟩ <;>
      rcases sty with _ | ⟨s, ss⟩ <;> rfl
  · rcases spec.color_preferences with _ | ⟨_ | ⟨c, cs⟩⟩ <;> rfl
  · rcases spec.pattern_preferences with _ | ⟨_ | ⟨p, ps⟩⟩ <;> rfl
  · rcases spec.style_preferences with _ | ⟨s, ss⟩ <;> rfl
  · rcases spec.color_preferences with _ | ⟨_ | ⟨c, cs⟩⟩ <;> simp
  · rcases spec.pattern_preferences with _ | ⟨_ | ⟨p, ps⟩⟩ <;> simp
  · rcases spec.style_preferences with _ | ⟨s, ss⟩ <;> simp

/-- C9 (counterexample): the chunk-level hits arrive best-score-first
(`hitB` at 0.9 before `hitA` at 0.8), yet `_find_suitable_fabrics` returns
the stored-file order `[recA, recB]` — deduplication goes through a Python
`set` and the stored fabric list is filtered in its own order, so the
result is not in best-score order. -/
theorem select_suitable_fabrics_order_cex :
    select_suitable_fabrics [(hitB, 9/10), (hitA, 8/10)] [recA, recB] =
      [recA, recB] ∧ ([recA, recB] : List FabricData) ≠ [recB, recA] := by
  exact ⟨by decide, by decide⟩

/-- C9 (amended): after the similarity search the caller keeps only stored
records whose code occurs among the chunk-level hits, in stored-file order
(not score order), truncated to at most 3; when the stored file has no
duplicate codes the returned records have pairwise distinct codes. -/
theorem select_suitable_fabrics_spec (results : List (FabricChunk × ℚ))
    (stored : List FabricData)
    (h : (stored.map (fun f => f.fabric_code)).Nodup) :
    (select_suitable_fabrics results stored).length ≤ 3 ∧
    List.Sublist (select_suitable_fabrics results stored) stored ∧
    (∀ f ∈ select_suitable_fabrics results stored,
      (results.map (fun r => r.1.fabric_code)).contains f.fabric_code) ∧
    ((select_suitable_fabrics results stored).map (fun f => f.fabric_code)).Nodup := by
  have hsub : List.Sublist (select_suitable_fabrics results stored) stored :=
    (List.take_sublist _ _).trans (List.filter_sublist stored)
  refine ⟨List.length_take_le _ _, hsub, ?_, ?_⟩
  · intro f hf
    have hf' : f ∈ stored.filter
        (fun g => (results.map (fun r => r.1.fabric_code)).contains g.fabric_code) :=
      List.mem_of_mem_take hf
    exact (List.mem_filter.mp hf').2
  · exact List.Nodup.sublist (hsub.map (fun f => f.fabric_code)) h

/-- C9 (witness): the deduplication theorem applied to the concrete hits
and stored records of the counterexample scenario (whose stored codes are
distinct). -/
theorem select_suitable_fabrics_spec_witness :
    (select_suitable_fabrics [(hitB, 9/10), (hitA, 8/10)] [recA, recB]).length ≤ 3 ∧
    List.Sublist (select_suitable_fabrics [(hitB, 9/10), (hitA, 8/10)] [recA, recB])
      [recA, recB] ∧
    (∀ f ∈ select_suitable_fabrics [(hitB, 9/10), (hitA, 8/10)] [recA, recB],
      (([(hitB, (9:ℚ)/10), (hitA, 8/10)]).map
        (fun r => r.1.fabric_code)).contains f.fabric_code) ∧
    ((select_suitable_fabrics [(hitB, 9/10), (hitA, 8/10)] [recA, recB]).map
      (fun f => f.fabric_code)).Nodup :=
  select_suitable_fabrics_spec [(hitB, 9/10), (hitA, 8/10)] [recA, recB] (by decide)

/-- C7: every assembled DALL-E prompt has length at most 1000 characters
(truncation keeps 997 characters plus `"..."`), and the part list joined
into the prompt is always: the fixed intro, then the occasion phrase, then
an optional fabric phrase summarizing at most 2 fabrics, then optional
color, pattern, season, style and notes phrases (at most one part each),
then the fixed photography-style suffix. -/
theorem dalle_prompt_bounded_ordered (spec : OutfitSpec) :
    (build_dalle_prompt spec).length ≤ 1000 ∧
    ∃ fseg cseg pseg sseg stseg nseg : List String,
      dalle_prompt_parts spec =
        DALLE_INTRO :: get_occasion_description spec.occasion ::
          (fseg ++ cseg ++ pseg ++ sseg ++ stseg ++ nseg ++ [DALLE_SUFFIX]) ∧
      fseg.length ≤ 1 ∧
      (∀ x ∈ fseg, ∃ descs : List String, descs.length ≤ 2 ∧
        x = "made from " ++ pyJoin ", " descs) ∧
      cseg.length ≤ 1 ∧ pseg.length ≤ 1 ∧ sseg.length ≤ 1 ∧ stseg.length ≤ 1 ∧
      nseg.length ≤ 1 := by
  constructor
  · simp only [build_dalle_prompt]
    split
    next h =>
      rw [String.length_append]
      have h2 : (strTake (pyJoin " " (dalle_prompt_parts spec)) 997).length ≤ 997 := by
        show ((pyJoin " " (dalle_prompt_parts spec)).data.take 997).length ≤ 997
        exact List.length_take_le 997 _
      have h3 : ("..." : String).length = 3 := rfl
      omega
    next h => omega
  · refine ⟨(match spec.fabrics with
             | some fabrics =>
               if fabrics ≠ [] then
                 if ((fabrics.take 2).filterMap (fun f =>
                       let d := fabric_to_description f
                       if d ≠ "" then some d else none)) ≠ [] then
                   ["made from " ++ pyJoin ", " ((fabrics.take 2).filterMap (fun f =>
                     let d := fabric_to_description f
                     if d ≠ "" then some d else none))]
                 else []
               else []
             | none => []),
            (match spec.color_preferences with
             | some (c :: cs) => ["in " ++ pyJoin ", " ((c :: cs).take 3) ++ " tones"]
             | _ => []),
            (match spec.pattern_preferences with
             | some (p :: ps) => ["with " ++ pyJoin ", " ((p :: ps).take 2) ++ " pattern"]
             | _ => []),
            (if get_season_description spec.season ≠ ""
             then [get_season_description spec.season] else []),
            (if spec.style_preferences ≠ []
             then [pyJoin ", " (spec.style_preferences.take 3) ++ " style"] else []),
            (match spec.additional_notes with
             | some notes => if notes ≠ "" then [notes] else []
             | none => []), rfl, ?_, ?_, ?_, ?_, ?_, ?_, ?_⟩
    · rcases spec.fabrics with _ | fl
      · simp
      · dsimp only
        split_ifs <;> simp
    · rcases spec.fabrics with _ | fl
      · simp
      · dsimp only
        split_ifs with h1 h2
        · intro x hx
          simp only [List.mem_singleton] at hx
          refine ⟨(fl.take 2).filterMap (fun f =>
            let d := fabric_to_description f
            if d ≠ "" then some d else none), ?_, hx⟩
          exact le_trans (List.length_filterMap_le _ _) (List.length_take_le 2 fl)
        · simp
        · simp
    · rcases spec.color_preferences with _ | ⟨_ | ⟨c, cs⟩⟩ <;> simp
    · rcases spec.pattern_preferences with _ | ⟨_ | ⟨p, ps⟩⟩ <;> simp
    · split_ifs <;> simp
    · split_ifs <;> simp
    · rcases spec.additional_notes with _ | n
      · simp
      · dsimp only
        split_ifs <;> simp

end FabricRag
